import Mathlib

/-
Verification of the request-normalization and dispatch layer of the
ZAI Python SDK Service (src/python_backend/zai_service.py).

The service is a FastAPI façade over an external chat SDK
(web-ui-python-sdk, the "External Chat Client" of the design spec).
The SDK itself is not part of this repository: it is embedded here as an
abstract structure of operations (`ZAIClient`) and an abstract preset
resolver (`String → Option Preset`), exactly the black-box collaborator
interface the service depends on.  Python exceptions are embedded as
`Except String`; every handler additionally returns the trace of calls it
issued against the client, so that claims about which calls are made (and
in which order) are statable.  Nondeterministic wall-clock timestamps
(`asyncio.get_event_loop().time()`) are passed in as an explicit `now`
parameter of type `Rat`; float generation parameters are embedded as `Rat`
(they are only carried, never computed with).
-/

namespace ZaiService

/-- Model of an inbound chat message (Pydantic `ChatMessage`, zai_service.py
lines 30-33): role, content, optional timestamp. -/
structure ChatMessage where
  role : String
  content : String
  timestamp : Option Rat := none
deriving DecidableEq, Repr

/-- Model of the open configuration mapping carried by a `ChatRequest`
(`config : Dict[str, Any]`).  Only the keys the service reads are modelled;
a `none` field stands for an absent key, so `Option.getD` embeds
`config.get(key, default)`. -/
structure Config where
  model : Option String := none
  enableThinking : Option Bool := none
  temperature : Option Rat := none
  topP : Option Rat := none
  maxTokens : Option Nat := none
  preset : Option String := none
deriving DecidableEq, Repr

/-- Model of an inbound chat request (Pydantic `ChatRequest`, lines 35-37). -/
structure ChatRequest where
  messages : List ChatMessage
  config : Config := {}
deriving DecidableEq, Repr

/-- Model of a preset returned by the SDK's `get_preset` (`custom_models`, an
external collaborator): a mapping whose keys `temperature`, `top_p` and
`max_tokens` may each be present or absent. -/
structure Preset where
  temperature : Option Rat := none
  top_p : Option Rat := none
  max_tokens : Option Nat := none
deriving DecidableEq, Repr

/-- Generation parameters after extraction from the config: the values the
service passes on to the External Chat Client. -/
structure GenParams where
  model : String
  enableThinking : Bool
  temperature : Rat
  topP : Rat
  maxTokens : Nat
deriving DecidableEq, Repr

/-- Parameter extraction of the `/chat` handler (`chat_completion`,
lines 148-162): defaults `glm-4.5v`, thinking on, 0.7 / 0.9 / 2000, then the
preset block — `config.get("preset")`, and when the name is truthy (a
non-empty string) and `get_preset` returns a preset, the keys present in the
preset override temperature, top-p and max-tokens. -/
def chatCompletionParams (get_preset : String → Option Preset) (config : Config) : GenParams :=
  let model := config.model.getD "glm-4.5v"
  let enableThinking := config.enableThinking.getD true
  let temperature := config.temperature.getD 0.7
  let topP := config.topP.getD 0.9
  let maxTokens := config.maxTokens.getD 2000
  match config.preset with
  | some presetName =>
    if presetName ≠ "" then
      match get_preset presetName with
      | some preset =>
        { model := model, enableThinking := enableThinking,
          temperature := preset.temperature.getD temperature,
          topP := preset.top_p.getD topP,
          maxTokens := preset.max_tokens.getD maxTokens }
      | none =>
        { model := model, enableThinking := enableThinking, temperature := temperature,
          topP := topP, maxTokens := maxTokens }
    else
      { model := model, enableThinking := enableThinking, temperature := temperature,
        topP := topP, maxTokens := maxTokens }
  | none =>
    { model := model, enableThinking := enableThinking, temperature := temperature,
      topP := topP, maxTokens := maxTokens }

/-- Parameter extraction of the `/chat-stream` handler (`chat_stream`,
lines 216-221): the same five `config.get` reads with the same defaults, and
no preset block. -/
def chatStreamParams (config : Config) : GenParams :=
  { model := config.model.getD "glm-4.5v",
    enableThinking := config.enableThinking.getD true,
    temperature := config.temperature.getD 0.7,
    topP := config.topP.getD 0.9,
    maxTokens := config.maxTokens.getD 2000 }

/-- Model of a Python value as it appears in the `Dict[str, Any]` tool input
and in tool result payloads: strings, numbers, booleans, `None`, and nested
dicts (association lists, first binding wins as in a Python dict). -/
inductive PyVal where
  | str (s : String)
  | num (q : Rat)
  | boolean (b : Bool)
  | null
  | dict (fields : List (String × PyVal))
deriving Repr

/-- Python truthiness of a modelled value (`if v:`): empty strings, zero,
`False`, `None` and empty dicts are falsy. -/
def PyVal.truthy : PyVal → Bool
  | .str s => s ≠ ""
  | .num q => q ≠ 0
  | .boolean b => b
  | .null => false
  | .dict fields => !fields.isEmpty

/-- Escape of a string for the modelled JSON serialization: backslash and
double quote are escaped, other characters kept. -/
def escapeJson (s : String) : String :=
  String.join (s.toList.map fun c =>
    if c = '\\' then "\\\\" else if c = '"' then "\\\"" else String.singleton c)

mutual

/-- Model of `json.dumps` on a value (the `indent=2` layout of the original is
abstracted to a compact rendering; the claims only use that the serialization
is a function of the input embedded into the prompt). -/
def PyVal.dumps : PyVal → String
  | .str s => "\"" ++ escapeJson s ++ "\""
  | .num q => toString q
  | .boolean b => if b then "true" else "false"
  | .null => "null"
  | .dict fields => "\x7b" ++ dumpsFields fields ++ "\x7d"

/-- Model of `json.dumps` on the bindings of a dict. -/
def dumpsFields : List (String × PyVal) → String
  | [] => ""
  | [(k, v)] => "\"" ++ escapeJson k ++ "\": " ++ PyVal.dumps v
  | (k, v) :: rest => "\"" ++ escapeJson k ++ "\": " ++ PyVal.dumps v ++ ", " ++ dumpsFields rest

end

/-- Model of Python `str()` on a modelled value, as applied by f-string
interpolation (dict rendering is abstracted to the JSON rendering). -/
def PyVal.pyStr : PyVal → String
  | .str s => s
  | .num q => toString q
  | .boolean b => if b then "True" else "False"
  | .null => "None"
  | .dict fields => "\x7b" ++ dumpsFields fields ++ "\x7d"

/-- Model of Python `len()` on a modelled value: defined on strings and dicts,
a `TypeError` (embedded as `Except.error`) on the rest. -/
def PyVal.pyLen : PyVal → Except String Nat
  | .str s => .ok s.length
  | .dict fields => .ok fields.length
  | _ => .error "TypeError: object has no len()"

/-- Helper for `d.get(key, default)` on a modelled dict body. -/
def dictGet (d : List (String × PyVal)) (key : String) (dflt : PyVal) : PyVal :=
  (d.lookup key).getD dflt

/-- Helper for `d.get(key, default)` where the value is then used as a string
by f-string interpolation: the stored value is rendered with `str()`. -/
def dictGetStr (d : List (String × PyVal)) (key : String) (dflt : String) : String :=
  match d.lookup key with
  | some v => v.pyStr
  | none => dflt

/-- Model of one converted chat message, `{"role": msg.role, "content":
msg.content}` (line 145/213). -/
structure Msg where
  role : String
  content : String
deriving DecidableEq, Repr

/-- Conversion of a `ChatMessage` performed by both chat handlers. -/
def convMsg (m : ChatMessage) : Msg :=
  { role := m.role, content := m.content }

/-- Model of a response object returned by the SDK's single-turn and
multi-turn calls: `content`, plus the optional attributes the service reads
through `getattr(response, ..., None)` — `none` stands for an absent
attribute. -/
structure SDKResponse where
  content : String
  thinking : Option String := none
  usage : Option (List (String × Nat)) := none

/-- Model of the chat object returned by `create_chat`: the service only reads
`chat.get("id")`, and tests `if chat:` for truthiness, so a chat is modelled
as its optional id; an outer `none` stands for a falsy chat value. -/
structure ChatObj where
  id : Option String
deriving DecidableEq, Repr

/-- Model of `chat.get("id") if chat else None` (line 186). -/
def chatIdOf : Option ChatObj → Option String
  | none => none
  | some c => c.id

/-- Model of `chat.get("id") if chat else "default"` (line 233). -/
def streamChatId : Option ChatObj → Option String
  | none => some "default"
  | some c => c.id

/-- Model of one streamed fragment (`chunk`): the optional attributes read via
`hasattr`, plus its `str()` rendering used as fallback delta. -/
structure Chunk where
  delta_content : Option String := none
  phase : Option String := none
  asString : String := ""
deriving DecidableEq, Repr

/-- Keyword arguments of a `client.simple_chat(...)` call; `top_p` and
`max_tokens` are `none` when the call site omits them (the tool-execution
call sites do). -/
structure SimpleChatArgs where
  message : String
  model : String
  enable_thinking : Bool
  temperature : Rat
  top_p : Option Rat := none
  max_tokens : Option Nat := none
deriving DecidableEq, Repr

/-- Modelled from the spec: the External Chat Client collaborator
(web-ui-python-sdk's `ZAIClient`), which is not part of this repository.
Each operation of §6 of the design spec is an abstract function; a raised
exception is an `Except.error` carrying `str(e)`.  `stream_completion` is an
iterator: it yields a finite list of fragments and then either ends normally
(`none`) or raises (`some error`), capturing a mid-stream failure after some
fragments were already yielded. -/
structure ZAIClient where
  simple_chat : SimpleChatArgs → Except String SDKResponse
  create_chat : (title : String) → (models : List String) → (initialMessage : String) →
    (enableThinking : Bool) → Except String (Option ChatObj)
  complete_chat : (chatId : Option String) → (messages : List Msg) → (model : String) →
    (enableThinking : Bool) → (temperature : Rat) → (topP : Rat) → (maxTokens : Nat) →
    Except String SDKResponse
  stream_completion : (chatId : Option String) → (messages : List Msg) → (model : String) →
    (enableThinking : Bool) → (temperature : Rat) → (topP : Rat) → (maxTokens : Nat) →
    List Chunk × Option String

/-- Record of one call issued against the External Chat Client, used to state
which calls a handler makes and in which order. -/
inductive ClientCall where
  | simpleChatC (args : SimpleChatArgs)
  | createChatC (title : String) (models : List String) (initialMessage : String)
      (enableThinking : Bool)
  | completeChatC (chatId : Option String) (messages : List Msg) (model : String)
      (enableThinking : Bool) (temperature : Rat) (topP : Rat) (maxTokens : Nat)
  | streamCompletionC (chatId : Option String) (messages : List Msg) (model : String)
      (enableThinking : Bool) (temperature : Rat) (topP : Rat) (maxTokens : Nat)
deriving DecidableEq, Repr

/-- Model of the service's outbound chat response (Pydantic `ChatResponse`,
lines 39-43), built at lines 195-200: content and optional thinking/usage come
from the SDK response, the model field echoes the resolved model id. -/
structure ChatResponse where
  content : String
  thinking : Option String := none
  model : String
  usage : Option (List (String × Nat)) := none

/-- Wrapping of an SDK call result into the handler's outcome (lines 195-204):
success builds a `ChatResponse` echoing the resolved model; an exception
becomes the HTTP 500 detail `"Chat completion failed: " ++ str(e)`. -/
def mkChatResp : Except String SDKResponse → String → Except String ChatResponse
  | .error e, _ => .error ("Chat completion failed: " ++ e)
  | .ok r, model => .ok { content := r.content, thinking := r.thinking, model := model,
                          usage := r.usage }

/-- Model of `messages[0]["content"] if messages else "Hello"`
(lines 180 and 229). -/
def seedMessage : List Msg → String
  | [] => "Hello"
  | m :: _ => m.content

/-- Multi-message branch of `chat_completion` (lines 174-193): create a chat
session titled `"API Chat Session"` seeded with the first message's content
(default greeting when there is none), then complete the chat with the full
message list.  A failed `create_chat` propagates as the handler's exception
with only the create call in the trace. -/
def multiTurn (client : ZAIClient) (p : GenParams) (messages : List Msg) :
    Except String ChatResponse × List ClientCall :=
  let createCall := ClientCall.createChatC "API Chat Session" [p.model]
    (seedMessage messages) p.enableThinking
  match client.create_chat "API Chat Session" [p.model] (seedMessage messages)
      p.enableThinking with
  | .error e => (.error ("Chat completion failed: " ++ e), [createCall])
  | .ok chat =>
    (mkChatResp (client.complete_chat (chatIdOf chat) messages p.model p.enableThinking
        p.temperature p.topP p.maxTokens) p.model,
     [createCall,
      ClientCall.completeChatC (chatIdOf chat) messages p.model p.enableThinking
        p.temperature p.topP p.maxTokens])

/-- Model of the `/chat` handler `chat_completion` (lines 138-204).  The
process-wide client is supplied as `clientE` (`Except.error` when
`get_zai_client()` raises); `get_preset` is the SDK's abstract preset
resolver.  The second component is the trace of calls issued against the
External Chat Client. -/
def chatCompletion (clientE : Except String ZAIClient) (get_preset : String → Option Preset)
    (req : ChatRequest) : Except String ChatResponse × List ClientCall :=
  match clientE with
  | .error e => (.error ("Chat completion failed: " ++ e), [])
  | .ok client =>
    let messages := req.messages.map convMsg
    let p := chatCompletionParams get_preset req.config
    match messages with
    | [m] =>
      if m.role = "user" then
        let args : SimpleChatArgs :=
          { message := m.content, model := p.model, enable_thinking := p.enableThinking,
            temperature := p.temperature, top_p := some p.topP, max_tokens := some p.maxTokens }
        (mkChatResp (client.simple_chat args) p.model, [ClientCall.simpleChatC args])
      else
        multiTurn client p messages
    | _ => multiTurn client p messages

/-- Model of one server-sent event produced by the streaming generator: a data
event `{"delta": ..., "phase": ...}` (line 245-249) or the terminal error
event `{"error": ..., "phase": "error"}` (line 252-253). -/
inductive StreamEvent where
  | data (delta : String) (phase : String)
  | errorEvent (msg : String)
deriving DecidableEq, Repr

/-- Test for the terminal error event. -/
def StreamEvent.isError : StreamEvent → Bool
  | .errorEvent _ => true
  | _ => false

/-- Translation of one streamed fragment into a data event (lines 245-248):
delta falls back to `str(chunk)` when the fragment has no `delta_content`
attribute, phase defaults to `"answer"`. -/
def chunkEvent (c : Chunk) : StreamEvent :=
  .data (c.delta_content.getD c.asString) (c.phase.getD "answer")

/-- Model of the generator `generate_stream` inside `chat_stream`
(lines 223-253): create a session titled `"Streaming Chat Session"`, then
re-emit each streamed fragment as a data event; any exception — from
`create_chat` or raised mid-iteration by `stream_completion` — yields a single
terminal error event in place of further deltas. -/
def generateStream (client : ZAIClient) (messages : List Msg) (p : GenParams) :
    List StreamEvent :=
  match client.create_chat "Streaming Chat Session" [p.model] (seedMessage messages)
      p.enableThinking with
  | .error e => [.errorEvent e]
  | .ok chat =>
    let out := client.stream_completion (streamChatId chat) messages p.model p.enableThinking
      p.temperature p.topP p.maxTokens
    out.1.map chunkEvent ++
      (match out.2 with
       | some e => [StreamEvent.errorEvent e]
       | none => [])

/-- Model of the `/chat-stream` handler `chat_stream` (lines 206-267): message
conversion and parameter extraction (`chatStreamParams`, no preset block),
then the event sequence of `generateStream`; a failure before the generator is
built (the client accessor raising) becomes the HTTP 500 detail
`"Streaming failed: " ++ str(e)`. -/
def chatStream (clientE : Except String ZAIClient) (req : ChatRequest) :
    Except String (List StreamEvent) :=
  match clientE with
  | .error e => .error ("Streaming failed: " ++ e)
  | .ok client =>
    .ok (generateStream client (req.messages.map convMsg) (chatStreamParams req.config))

/-- Model of an inbound tool-execution request (Pydantic
`ToolExecutionRequest`, lines 45-48). -/
structure ToolExecutionRequest where
  toolName : String
  input : List (String × PyVal)
  context : Option (List (String × PyVal)) := none

/-- Model of the structured tool-execution response (Pydantic
`ToolExecutionResponse`, lines 50-55). -/
structure ToolExecutionResponse where
  success : Bool
  toolName : String
  result : Option (List (String × PyVal)) := none
  error : Option String := none
  timestamp : Rat

/-- Failure exit of the tool dispatcher (lines 386-393). -/
def toolFailure (name : String) (e : String) (now : Rat) : ToolExecutionResponse :=
  { success := false, toolName := name, error := some e, timestamp := now }

/-- Success exit of the tool dispatcher (lines 379-384). -/
def toolSuccess (name : String) (result : List (String × PyVal)) (now : Rat) :
    ToolExecutionResponse :=
  { success := true, toolName := name, result := some result, timestamp := now }

/-- Conversion of an optional thinking trace into a payload value
(`getattr(response, 'thinking', None)`). -/
def optStrVal : Option String → PyVal
  | some s => .str s
  | none => .null

/-- Token count read from a response for the analysis result (line 313):
`getattr(response, 'usage', {}).get('total_tokens', 0)` guarded by
`hasattr`. -/
def tokensUsedOf (r : SDKResponse) : Nat :=
  match r.usage with
  | some u => (u.lookup "total_tokens").getD 0
  | none => 0

/-- Analysis prompt of the repository-analysis tools (lines 286-294),
reproducing the triple-quoted f-string including its continuation-line
indentation. -/
def analysisPrompt (owner repo analysisType : String) : String :=
  "Analyze the GitHub repository " ++ owner ++ "/" ++ repo ++ " with focus on " ++
  analysisType ++ ".\n            Please provide:\n            " ++
  "1. Overall repository structure and organization\n            " ++
  "2. Key technologies and frameworks used  \n            " ++
  "3. Code quality assessment\n            " ++
  "4. Architecture patterns identified\n            " ++
  "5. Potential improvements or issues\n            \n            " ++
  "Be specific and actionable in your analysis."

/-- Model of `context_info and f'Context: {context_info}' or ''` (line 326):
the context line is present exactly when the raw context value is truthy. -/
def contextLine (contextInfo : PyVal) : String :=
  if contextInfo.truthy then "Context: " ++ contextInfo.pyStr else ""

/-- Review prompt of the code-review tool (lines 324-341). -/
def reviewPrompt (language reviewType : String) (contextInfo code : PyVal) : String :=
  "Please review this " ++ language ++ " code with focus on " ++ reviewType ++
  " aspects:\n\n" ++ contextLine contextInfo ++ "\n\nCode:\n```" ++ language ++ "\n" ++
  code.pyStr ++ "\n```\n\nPlease provide:\n" ++
  "1. Code quality assessment\n" ++
  "2. Security considerations\n" ++
  "3. Performance implications  \n" ++
  "4. Best practices adherence\n" ++
  "5. Specific improvement suggestions\n" ++
  "6. Potential bugs or issues\n\n" ++
  "Be detailed and actionable in your feedback."

/-- Generic assistance prompt for any other tool name (lines 363-366):
`tool_description` embeds the tool name and the serialized input. -/
def genericPrompt (toolName : String) (input : List (String × PyVal)) : String :=
  "Help with this development task: " ++
  ("Execute " ++ toolName ++ " with parameters: " ++ PyVal.dumps (.dict input)) ++
  ". Please provide practical assistance and guidance."

/-- Result payload of the repository-analysis branch (lines 303-315). -/
def analysisResult (owner repo analysisType : String) (resp : SDKResponse) (now : Rat) :
    List (String × PyVal) :=
  [("success", .boolean true),
   ("source", .str "zai-python-sdk"),
   ("repository", .str (owner ++ "/" ++ repo)),
   ("analysisType", .str analysisType),
   ("analysis", .str resp.content),
   ("thinking", optStrVal resp.thinking),
   ("model", .str "0727-360B-API"),
   ("metadata", .dict [("timestamp", .num now),
                       ("tokensUsed", .num (tokensUsedOf resp))])]

/-- Result payload of the code-review branch (lines 350-359). -/
def reviewResult (language reviewType : String) (codeLength : Nat) (resp : SDKResponse)
    (now : Rat) : List (String × PyVal) :=
  [("success", .boolean true),
   ("review", .str resp.content),
   ("thinking", optStrVal resp.thinking),
   ("language", .str language),
   ("reviewType", .str reviewType),
   ("model", .str "0727-360B-API"),
   ("codeLength", .num codeLength),
   ("timestamp", .num now)]

/-- Result payload of the generic branch (lines 372-377). -/
def genericResult (resp : SDKResponse) (now : Rat) : List (String × PyVal) :=
  [("success", .boolean true),
   ("content", .str resp.content),
   ("model", .str "glm-4.5v"),
   ("timestamp", .num now)]

/-- Model of the `/execute-tool` handler `execute_tool` (lines 269-393).  The
whole body runs inside one `try`, so every exception — a failing client
accessor, a failing delegation, or the `len()` of a non-sized code value —
becomes a `success := false` response rather than escaping.  The second
component is the trace of calls issued against the External Chat Client.
Wall-clock reads are supplied as `now`. -/
def executeTool (clientE : Except String ZAIClient) (now : Rat)
    (req : ToolExecutionRequest) : ToolExecutionResponse × List ClientCall :=
  match clientE with
  | .error e => (toolFailure req.toolName e now, [])
  | .ok client =>
    if req.toolName = "pythonAnalyzeRepository" ∨ req.toolName = "analyzeRepositoryStructure" then
      let owner := dictGetStr req.input "owner" ""
      let repo := dictGetStr req.input "repo" ""
      let analysisType := dictGetStr req.input "analysisType" "structure"
      let args : SimpleChatArgs :=
        { message := analysisPrompt owner repo analysisType, model := "0727-360B-API",
          enable_thinking := true, temperature := 0.3 }
      match client.simple_chat args with
      | .error e => (toolFailure req.toolName e now, [ClientCall.simpleChatC args])
      | .ok resp =>
        (toolSuccess req.toolName (analysisResult owner repo analysisType resp now) now,
         [ClientCall.simpleChatC args])
    else if req.toolName = "pythonCodeReview" then
      let code := dictGet req.input "code" (.str "")
      let language := dictGetStr req.input "language" "typescript"
      let reviewType := dictGetStr req.input "reviewType" "comprehensive"
      let contextInfo := dictGet req.input "context" (.str "")
      let args : SimpleChatArgs :=
        { message := reviewPrompt language reviewType contextInfo code,
          model := "0727-360B-API", enable_thinking := true, temperature := 0.2 }
      match client.simple_chat args with
      | .error e => (toolFailure req.toolName e now, [ClientCall.simpleChatC args])
      | .ok resp =>
        match code.pyLen with
        | .error e => (toolFailure req.toolName e now, [ClientCall.simpleChatC args])
        | .ok n =>
          (toolSuccess req.toolName (reviewResult language reviewType n resp now) now,
           [ClientCall.simpleChatC args])
    else
      let args : SimpleChatArgs :=
        { message := genericPrompt req.toolName req.input, model := "glm-4.5v",
          enable_thinking := false, temperature := 0.7 }
      match client.simple_chat args with
      | .error e => (toolFailure req.toolName e now, [ClientCall.simpleChatC args])
      | .ok resp =>
        (toolSuccess req.toolName (genericResult resp now) now,
         [ClientCall.simpleChatC args])

/-- Model of the lazy accessor `get_zai_client` (lines 72-86) as a transition
on the process state `zai_client : Option ZAIClient`.  `ctor` stands for the
effect of `ZAIClient(auto_auth=True, ...)`: constructing the client may raise.
When the global is already set the constructor is not consulted; when it is
`none` the constructor runs, its result is stored on success, and its
exception re-raises leaving the global unset. -/
def getZaiClient (ctor : Except String ZAIClient) (st : Option ZAIClient) :
    Except String ZAIClient × Option ZAIClient :=
  match st with
  | some c => (.ok c, some c)
  | none =>
    match ctor with
    | .ok c => (.ok c, some c)
    | .error e => (.error e, none)

/-- Sequence of accessor calls threaded through the process state: returns the
result of each call and the final state. -/
def runCalls : List (Except String ZAIClient) → Option ZAIClient →
    List (Except String ZAIClient) × Option ZAIClient
  | [], st => ([], st)
  | ctor :: rest, st =>
    let step := getZaiClient ctor st
    let tail := runCalls rest step.2
    (step.1 :: tail.1, tail.2)

/-- Model of the `/health` response: the healthy body (lines 103-108) carries
`client_ready`; the unhealthy body (lines 110-114) carries `error` and no
`client_ready` field. -/
structure HealthResponse where
  status : String
  timestamp : Rat
  pythonSDK : Option String := none
  client_ready : Option Bool := none
  error : Option String := none

/-- Model of the `/health` handler `health_check` (lines 98-114): it calls
`get_zai_client()` — which constructs the client when the global is unset —
and on success reports `client_ready` as `client is not None`, which is true
for any value the accessor returns; on exception it reports an unhealthy
status with the error text.  The second component is the process state after
the probe. -/
def healthCheck (ctor : Except String ZAIClient) (now : Rat) (st : Option ZAIClient) :
    HealthResponse × Option ZAIClient :=
  match getZaiClient ctor st with
  | (Except.ok _, st') =>
    ({ status := "healthy", timestamp := now, pythonSDK := some "web-ui-python-sdk",
       client_ready := some true }, st')
  | (Except.error e, st') =>
    ({ status := "unhealthy", timestamp := now, error := some e }, st')

/-- Fixed SDK response used to instantiate the abstract collaborator in
concrete evaluations. -/
def fixedResponse (c : String) : SDKResponse :=
  { content := c }

/-- Concrete instantiation of the External Chat Client for closed-form
evaluations: every operation succeeds with a fixed response. -/
def testClient : ZAIClient :=
  { simple_chat := fun _ => .ok (fixedResponse "This code is fine."),
    create_chat := fun _ _ _ _ => .ok (some { id := some "chat-1" }),
    complete_chat := fun _ _ _ _ _ _ _ => .ok (fixedResponse "Multi-turn reply."),
    stream_completion := fun _ _ _ _ _ _ _ => ([], none) }

/-- Concrete preset environment for closed-form evaluations: the name
`"focused"` resolves to a preset that only overrides the temperature. -/
def presetEnvCex : String → Option Preset :=
  fun n => if n = "focused" then some { temperature := some 0.2 } else none

/-- Concrete config naming the `"focused"` preset. -/
def cfgCex : Config :=
  { preset := some "focused" }

/-- Concrete config naming the `"focused"` preset with a caller-supplied
max-tokens value. -/
def cfgPresetMax : Config :=
  { maxTokens := some 512, preset := some "focused" }

/-- Concrete two-message chat request (multi-turn path). -/
def multiReq : ChatRequest :=
  { messages := [{ role := "user", content := "a" }, { role := "assistant", content := "b" }] }

/-- Concrete tool request of the spec's code-review example:
`{toolName:"pythonCodeReview", input:{code:"x=1", language:"python"}}`. -/
def reviewReq : ToolExecutionRequest :=
  { toolName := "pythonCodeReview",
    input := [("code", .str "x=1"), ("language", .str "python")] }

/-- Concrete tool request with a tool name no branch recognizes. -/
def customToolReq : ToolExecutionRequest :=
  { toolName := "myCustomTool", input := [("task", .str "deploy")] }

/-- C1: tool dispatch is total — for every tool name, input mapping, client
state and time, `execute_tool` returns a structured `ToolExecutionResponse`
echoing the tool name and timestamp that is either success with a result
payload or failure with an error text; no exception during prompt
construction or delegation escapes to the caller. -/
theorem execute_tool_total (clientE : Except String ZAIClient) (now : Rat)
    (req : ToolExecutionRequest) :
    (executeTool clientE now req).1.toolName = req.toolName ∧
    (executeTool clientE now req).1.timestamp = now ∧
    (((executeTool clientE now req).1.success = true ∧
      ((executeTool clientE now req).1.result).isSome = true ∧
      (executeTool clientE now req).1.error = none) ∨
     ((executeTool clientE now req).1.success = false ∧
      ((executeTool clientE now req).1.error).isSome = true ∧
      (executeTool clientE now req).1.result = none)) := by
  rcases clientE with e | client
  · simp [executeTool, toolFailure]
  · simp only [executeTool]
    split
    · split <;> simp [toolFailure, toolSuccess]
    · split
      · split
        · simp [toolFailure]
        · split <;> simp [toolFailure, toolSuccess]
      · split <;> simp [toolFailure, toolSuccess]

/-- C2: for every chat request containing exactly one message whose role is
`"user"`, the handler issues a single `simple_chat` call carrying that
message's content and the resolved generation parameters, and never creates a
session — the trace is exactly one single-turn call. -/
theorem chat_single_user_issues_simple_chat (client : ZAIClient)
    (get_preset : String → Option Preset) (m : ChatMessage) (cfg : Config)
    (h : m.role = "user") :
    (chatCompletion (.ok client) get_preset { messages := [m], config := cfg }).2 =
      [ClientCall.simpleChatC
        { message := m.content,
          model := (chatCompletionParams get_preset cfg).model,
          enable_thinking := (chatCompletionParams get_preset cfg).enableThinking,
          temperature := (chatCompletionParams get_preset cfg).temperature,
          top_p := some (chatCompletionParams get_preset cfg).topP,
          max_tokens := some (chatCompletionParams get_preset cfg).maxTokens }] := by
  simp [chatCompletion, convMsg, h]

/-- Witness for C2 at the request `[{role:"user", content:"hi"}]` with an
empty config. -/
theorem chat_single_user_issues_simple_chat_witness :
    ({ role := "user", content := "hi" } : ChatMessage).role = "user" ∧
    (chatCompletion (.ok testClient) (fun _ => none)
        { messages := [{ role := "user", content := "hi" }], config := {} }).2 =
      [ClientCall.simpleChatC
        { message := "hi", model := "glm-4.5v", enable_thinking := true,
          temperature := 0.7, top_p := some 0.9, max_tokens := some 2000 }] :=
  ⟨rfl, chat_single_user_issues_simple_chat testClient (fun _ => none)
    { role := "user", content := "hi" } {} rfl⟩

/-- Helper: outside the single-user-message case, `chat_completion` runs its
multi-message branch. -/
theorem chatCompletion_multi_eq (client : ZAIClient) (get_preset : String → Option Preset)
    (req : ChatRequest) (h : ¬ ∃ m, req.messages = [m] ∧ m.role = "user") :
    chatCompletion (.ok client) get_preset req =
      multiTurn client (chatCompletionParams get_preset req.config)
        (req.messages.map convMsg) := by
  simp only [chatCompletion]
  rcases hm : req.messages with _ | ⟨m, _ | ⟨m2, rest⟩⟩
  · rfl
  · have hr : ¬ m.role = "user" := fun hu => h ⟨m, hm, hu⟩
    simp [convMsg, hr]
  · rfl

/-- Helper: the trace of the multi-message branch is the create call alone
(when session creation raises) or the create call followed by the completion
call carrying the full message list. -/
theorem multiTurn_trace (client : ZAIClient) (p : GenParams) (messages : List Msg) :
    (multiTurn client p messages).2 =
      [ClientCall.createChatC "API Chat Session" [p.model] (seedMessage messages)
        p.enableThinking] ∨
    ∃ cid, (multiTurn client p messages).2 =
      [ClientCall.createChatC "API Chat Session" [p.model] (seedMessage messages)
        p.enableThinking,
       ClientCall.completeChatC cid messages p.model p.enableThinking p.temperature
        p.topP p.maxTokens] := by
  unfold multiTurn
  rcases hc : client.create_chat "API Chat Session" [p.model] (seedMessage messages)
      p.enableThinking with e | chat
  · left; simp [hc]
  · right; exact ⟨chatIdOf chat, by simp [hc]⟩

/-- C3: for every chat request outside the single-user-message case, a session
is created — seeded with the first message's content, or the default greeting
`"Hello"` when the message list is empty — before any completion call, and
the completion call (issued whenever session creation succeeds) carries the
full converted message sequence in the original order. -/
theorem chat_multi_creates_session (client : ZAIClient)
    (get_preset : String → Option Preset) (req : ChatRequest)
    (h : ¬ ∃ m, req.messages = [m] ∧ m.role = "user") :
    (chatCompletion (.ok client) get_preset req).2 =
      [ClientCall.createChatC "API Chat Session"
        [(chatCompletionParams get_preset req.config).model]
        (seedMessage (req.messages.map convMsg))
        (chatCompletionParams get_preset req.config).enableThinking] ∨
    ∃ cid, (chatCompletion (.ok client) get_preset req).2 =
      [ClientCall.createChatC "API Chat Session"
        [(chatCompletionParams get_preset req.config).model]
        (seedMessage (req.messages.map convMsg))
        (chatCompletionParams get_preset req.config).enableThinking,
       ClientCall.completeChatC cid (req.messages.map convMsg)
        (chatCompletionParams get_preset req.config).model
        (chatCompletionParams get_preset req.config).enableThinking
        (chatCompletionParams get_preset req.config).temperature
        (chatCompletionParams get_preset req.config).topP
        (chatCompletionParams get_preset req.config).maxTokens] := by
  rw [chatCompletion_multi_eq client get_preset req h]
  exact multiTurn_trace client (chatCompletionParams get_preset req.config)
    (req.messages.map convMsg)

/-- Witness for C3 at a two-message request. -/
theorem chat_multi_creates_session_witness :
    (¬ ∃ m, multiReq.messages = [m] ∧ m.role = "user") ∧
    ((chatCompletion (.ok testClient) (fun _ => none) multiReq).2 =
      [ClientCall.createChatC "API Chat Session" ["glm-4.5v"] "a" true] ∨
     ∃ cid, (chatCompletion (.ok testClient) (fun _ => none) multiReq).2 =
      [ClientCall.createChatC "API Chat Session" ["glm-4.5v"] "a" true,
       ClientCall.completeChatC cid
        [{ role := "user", content := "a" }, { role := "assistant", content := "b" }]
        "glm-4.5v" true 0.7 0.9 2000]) :=
  ⟨by simp [multiReq],
   chat_multi_creates_session testClient (fun _ => none) multiReq (by simp [multiReq])⟩

/-- C4: preset resolution in the chat handler never raises (the resolver
returns an option, and the extraction is a total function); when the named
preset is unknown all generation parameters keep the caller-supplied (or
default) values, and when it exists only the keys present in the preset
override temperature, top-p and max-tokens, the absent keys keeping the
caller-supplied values.  A `none` preset hypothesis below is the unknown-name
case; Python truthiness makes the empty name skip resolution, so the claim is
about non-empty names. -/
theorem preset_resolution (get_preset : String → Option Preset) (cfg : Config)
    (name : String) (hn : cfg.preset = some name) (hne : name ≠ "") :
    (get_preset name = none →
      chatCompletionParams get_preset cfg =
        { model := cfg.model.getD "glm-4.5v",
          enableThinking := cfg.enableThinking.getD true,
          temperature := cfg.temperature.getD 0.7,
          topP := cfg.topP.getD 0.9,
          maxTokens := cfg.maxTokens.getD 2000 }) ∧
    (∀ pr, get_preset name = some pr →
      chatCompletionParams get_preset cfg =
        { model := cfg.model.getD "glm-4.5v",
          enableThinking := cfg.enableThinking.getD true,
          temperature := pr.temperature.getD (cfg.temperature.getD 0.7),
          topP := pr.top_p.getD (cfg.topP.getD 0.9),
          maxTokens := pr.max_tokens.getD (cfg.maxTokens.getD 2000) }) := by
  constructor
  · intro hu
    simp [chatCompletionParams, hn, hne, hu]
  · intro pr hpr
    simp [chatCompletionParams, hn, hne, hpr]

/-- Witness for C4: the `"focused"` preset only carries a temperature, so it
overrides the temperature while the caller-supplied max-tokens and the
defaults survive; resolution of that name is also exercised as never
raising. -/
theorem preset_resolution_witness :
    cfgPresetMax.preset = some "focused" ∧
    chatCompletionParams presetEnvCex cfgPresetMax =
      { model := "glm-4.5v", enableThinking := true, temperature := 0.2,
        topP := 0.9, maxTokens := 512 } :=
  ⟨rfl, (preset_resolution presetEnvCex cfgPresetMax "focused" rfl (by decide)).2
    { temperature := some 0.2 } rfl⟩

/-- Helper: a re-emitted fragment is a data event, never the terminal error
event. -/
theorem chunkEvent_not_error (c : Chunk) : (chunkEvent c).isError = false := rfl

/-- C5: every streaming event sequence is finite (it is a list) and any error
event in it is its last element, with at most one error event overall — the
sequence ends either by natural completion with only data events, or with
exactly one terminal error event, never both. -/
theorem generate_stream_single_terminal (client : ZAIClient) (messages : List Msg)
    (p : GenParams) :
    (∀ e ∈ (generateStream client messages p).dropLast, e.isError = false) ∧
    (generateStream client messages p).countP StreamEvent.isError ≤ 1 := by
  unfold generateStream
  rcases hc : client.create_chat "Streaming Chat Session" [p.model] (seedMessage messages)
      p.enableThinking with e | chat
  · simp [StreamEvent.isError]
  · simp only
    rcases h2 : (client.stream_completion (streamChatId chat) messages p.model
        p.enableThinking p.temperature p.topP p.maxTokens).2 with _ | e
    · dsimp only
      rw [List.append_nil]
      constructor
      · intro ev hev
        have hmem : ev ∈ (client.stream_completion (streamChatId chat) messages p.model
            p.enableThinking p.temperature p.topP p.maxTokens).1.map chunkEvent := by
          have := List.dropLast_sublist ((client.stream_completion (streamChatId chat)
            messages p.model p.enableThinking p.temperature p.topP p.maxTokens).1.map
            chunkEvent)
          simpa using this.subset (by simpa using hev)
        rcases List.mem_map.mp hmem with ⟨c, _, rfl⟩
        exact chunkEvent_not_error c
      · have : ∀ ev ∈ (client.stream_completion (streamChatId chat) messages p.model
            p.enableThinking p.temperature p.topP p.maxTokens).1.map chunkEvent,
            ¬ ev.isError = true := by
          intro ev hev
          rcases List.mem_map.mp hev with ⟨c, _, rfl⟩
          simp [chunkEvent_not_error]
        simp [List.countP_eq_zero.mpr this]
    · dsimp only
      constructor
      · intro ev hev
        rw [List.dropLast_concat] at hev
        rcases List.mem_map.mp hev with ⟨c, _, rfl⟩
        exact chunkEvent_not_error c
      · rw [List.countP_append]
        have : ∀ ev ∈ (client.stream_completion (streamChatId chat) messages p.model
            p.enableThinking p.temperature p.topP p.maxTokens).1.map chunkEvent,
            ¬ ev.isError = true := by
          intro ev hev
          rcases List.mem_map.mp hev with ⟨c, _, rfl⟩
          simp [chunkEvent_not_error]
        simp [List.countP_eq_zero.mpr this, StreamEvent.isError]

/-- C6 counterexample: with a preset environment resolving `"focused"` to a
temperature override and a config naming that preset, the parameters the
`/chat` handler resolves differ from the ones the `/chat-stream` handler
resolves — the stream path has no preset block, so the two normalizations are
not identical. -/
theorem chat_stream_preset_divergence :
    chatCompletionParams presetEnvCex cfgCex ≠ chatStreamParams cfgCex := by
  intro h
  have ht := congrArg GenParams.temperature h
  simp [chatCompletionParams, chatStreamParams, presetEnvCex, cfgCex] at ht
  norm_num at ht

/-- C6 amended: the streaming handler extracts model, thinking-flag,
temperature, top-p and max-tokens from the config exactly as the
non-streaming handler does, but never applies preset resolution; the resolved
parameters of the two paths coincide exactly when no effective preset
override applies (no preset named, an empty preset name, or an unknown
preset name). -/
theorem chat_stream_same_base_normalization (get_preset : String → Option Preset)
    (cfg : Config) :
    ((chatCompletionParams get_preset cfg).model = (chatStreamParams cfg).model ∧
     (chatCompletionParams get_preset cfg).enableThinking =
       (chatStreamParams cfg).enableThinking) ∧
    ((∀ n, cfg.preset = some n → n = "" ∨ get_preset n = none) →
      chatCompletionParams get_preset cfg = chatStreamParams cfg) := by
  constructor
  · cases h : cfg.preset with
    | none => simp [chatCompletionParams, chatStreamParams, h]
    | some n =>
      by_cases hn : n = ""
      · simp [chatCompletionParams, chatStreamParams, h, hn]
      · cases hg : get_preset n with
        | none => simp [chatCompletionParams, chatStreamParams, h, hn, hg]
        | some pr => simp [chatCompletionParams, chatStreamParams, h, hn, hg]
  · intro hp
    cases h : cfg.preset with
    | none => simp [chatCompletionParams, chatStreamParams, h]
    | some n =>
      rcases hp n h with hn | hg
      · simp [chatCompletionParams, chatStreamParams, h, hn]
      · by_cases hn : n = ""
        · simp [chatCompletionParams, chatStreamParams, h, hn]
        · simp [chatCompletionParams, chatStreamParams, h, hn, hg]

/-- Witness for the amended C6 at a config naming no preset. -/
theorem chat_stream_same_base_normalization_witness :
    chatCompletionParams presetEnvCex {} = chatStreamParams {} :=
  (chat_stream_same_base_normalization presetEnvCex {}).2
    (fun _ hn => Option.noConfusion hn)

/-- C7 counterexample: executing `pythonCodeReview` on
`{code:"x=1", language:"python"}` stores `codeLength = len("x=1") = 3` in the
result payload, not 4 as the claim's example states. -/
theorem code_review_codelength_is_three :
    ((executeTool (.ok testClient) 0 reviewReq).1.result.bind
      (fun r => r.lookup "codeLength")) = some (.num 3) ∧
    ¬ ((executeTool (.ok testClient) 0 reviewReq).1.result.bind
      (fun r => r.lookup "codeLength")) = some (.num 4) := by
  have h3 : ((executeTool (.ok testClient) 0 reviewReq).1.result.bind
      (fun r => r.lookup "codeLength")) = some (PyVal.num 3) := by rfl
  refine ⟨h3, ?_⟩
  rw [h3]
  intro h
  injection h with h'
  injection h' with h''
  norm_num at h''

/-- C7 amended: whenever the client's single-turn call returns a response with
non-empty content, executing `pythonCodeReview` on
`{code:"x=1", language:"python"}` yields success with a result payload whose
review text is that non-empty content, whose language is `"python"`, and whose
`codeLength` equals 3 (the length of `"x=1"`). -/
theorem code_review_example (client : ZAIClient) (resp : SDKResponse) (now : Rat)
    (h : ∀ a, client.simple_chat a = .ok resp) (hne : resp.content ≠ "") :
    (executeTool (.ok client) now reviewReq).1.success = true ∧
    ∃ res, (executeTool (.ok client) now reviewReq).1.result = some res ∧
      res.lookup "review" = some (.str resp.content) ∧ resp.content ≠ "" ∧
      res.lookup "language" = some (.str "python") ∧
      res.lookup "codeLength" = some (.num 3) := by
  have hb : executeTool (.ok client) now reviewReq =
      (toolSuccess reviewReq.toolName
        (reviewResult "python" "comprehensive" 3 resp now) now,
       [ClientCall.simpleChatC
         { message := reviewPrompt "python" "comprehensive" (.str "") (.str "x=1"),
           model := "0727-360B-API", enable_thinking := true, temperature := 0.2 }]) := by
    simp only [executeTool]
    rw [if_neg (by simp [reviewReq]), if_pos (by simp [reviewReq]), h]
    rfl
  rw [hb]
  exact ⟨rfl, reviewResult "python" "comprehensive" 3 resp now, rfl, rfl, hne, rfl, rfl⟩

/-- Witness for the amended C7 at the constant test client. -/
theorem code_review_example_witness :
    (executeTool (.ok testClient) 0 reviewReq).1.success = true ∧
    ∃ res, (executeTool (.ok testClient) 0 reviewReq).1.result = some res ∧
      res.lookup "review" = some (.str "This code is fine.") ∧
      ("This code is fine." : String) ≠ "" ∧
      res.lookup "language" = some (.str "python") ∧
      res.lookup "codeLength" = some (.num 3) :=
  code_review_example testClient (fixedResponse "This code is fine.") 0
    (fun _ => rfl) (by decide)

/-- C8: for every tool name outside the repository-analysis and code-review
branches, whenever the delegation succeeds the dispatcher yields success with
the generic assistance payload, and the single delegated call carries the
"assist with this task" prompt embedding the tool name and the serialized
input, at the default model `glm-4.5v` and the higher temperature 0.7 —
unrecognized names are never rejected. -/
theorem unknown_tool_generic_assist (client : ZAIClient) (now : Rat)
    (req : ToolExecutionRequest) (resp : SDKResponse)
    (h1 : req.toolName ≠ "pythonAnalyzeRepository")
    (h2 : req.toolName ≠ "analyzeRepositoryStructure")
    (h3 : req.toolName ≠ "pythonCodeReview")
    (h : ∀ a, client.simple_chat a = .ok resp) :
    (executeTool (.ok client) now req).1 =
      toolSuccess req.toolName (genericResult resp now) now ∧
    (executeTool (.ok client) now req).2 =
      [ClientCall.simpleChatC
        { message := genericPrompt req.toolName req.input, model := "glm-4.5v",
          enable_thinking := false, temperature := 0.7 }] := by
  have hb : executeTool (.ok client) now req =
      (toolSuccess req.toolName (genericResult resp now) now,
       [ClientCall.simpleChatC
         { message := genericPrompt req.toolName req.input, model := "glm-4.5v",
           enable_thinking := false, temperature := 0.7 }]) := by
    simp only [executeTool]
    rw [if_neg (not_or.mpr ⟨h1, h2⟩), if_neg h3, h]
  rw [hb]
  exact ⟨rfl, rfl⟩

/-- Witness for C8 at the unrecognized tool name `"myCustomTool"`. -/
theorem unknown_tool_generic_assist_witness :
    (executeTool (.ok testClient) 0 customToolReq).1 =
      toolSuccess "myCustomTool" (genericResult (fixedResponse "This code is fine.") 0) 0 ∧
    (executeTool (.ok testClient) 0 customToolReq).2 =
      [ClientCall.simpleChatC
        { message := genericPrompt "myCustomTool" [("task", .str "deploy")],
          model := "glm-4.5v", enable_thinking := false, temperature := 0.7 }] :=
  unknown_tool_generic_assist testClient 0 customToolReq
    (fixedResponse "This code is fine.") (by decide) (by decide) (by decide) (fun _ => rfl)

/-- C9: the process holds at most one client instance — the accessor
constructs the client on the first call when the global is unset, and once a
client `c` is stored every later accessor call returns exactly `c` with the
state unchanged, regardless of what the constructor would do; no call
re-authenticates or replaces the instance. -/
theorem zai_client_singleton (ctor : Except String ZAIClient) (c : ZAIClient)
    (ctors : List (Except String ZAIClient)) :
    getZaiClient (.ok c) none = (.ok c, some c) ∧
    getZaiClient ctor (some c) = (.ok c, some c) ∧
    runCalls ctors (some c) = (ctors.map (fun _ => Except.ok c), some c) := by
  refine ⟨rfl, rfl, ?_⟩
  induction ctors with
  | nil => rfl
  | cons hd tl ih => simp [runCalls, getZaiClient, ih]

/-- C10 counterexample: probing `/health` with the client uninitialized and a
succeeding constructor reports `client_ready = true` although no client
instance existed at the time of the call, and leaves the client initialized —
the probe does change whether the client is initialized. -/
theorem health_probe_initializes :
    (healthCheck (.ok testClient) 0 none).1.client_ready = some true ∧
    (healthCheck (.ok testClient) 0 none).2 ≠ (none : Option ZAIClient) := by
  refine ⟨rfl, ?_⟩
  intro hh
  exact Option.noConfusion hh

/-- C10 amended: the health probe reports whether a client could be obtained,
constructing it on demand — when the client already exists it is reported
ready and left unchanged; when it is absent and construction succeeds the
probe initializes it and reports `client_ready = true`; when it is absent and
construction fails the probe reports an unhealthy status with no
`client_ready` field and the client stays uninitialized. -/
theorem health_check_reports_obtainability (ctor : Except String ZAIClient) (now : Rat)
    (st : Option ZAIClient) :
    (∀ c, st = some c →
      (healthCheck ctor now st).1.client_ready = some true ∧
      (healthCheck ctor now st).2 = some c) ∧
    (st = none → ∀ c, ctor = .ok c →
      (healthCheck ctor now st).1.client_ready = some true ∧
      (healthCheck ctor now st).2 = some c) ∧
    (st = none → ∀ e, ctor = .error e →
      (healthCheck ctor now st).1.status = "unhealthy" ∧
      (healthCheck ctor now st).1.client_ready = none ∧
      (healthCheck ctor now st).2 = none) := by
  refine ⟨?_, ?_, ?_⟩
  · rintro c rfl
    exact ⟨rfl, rfl⟩
  · rintro rfl c rfl
    exact ⟨rfl, rfl⟩
  · rintro rfl e rfl
    exact ⟨rfl, rfl, rfl⟩

/-- Witness for the amended C10 exercising all three cases: an existing
client, on-demand construction, and failing construction. -/
theorem health_check_reports_obtainability_witness :
    ((healthCheck (.error "boom") 0 (some testClient)).1.client_ready = some true ∧
     (healthCheck (.error "boom") 0 (some testClient)).2 = some testClient) ∧
    ((healthCheck (.ok testClient) 0 none).1.client_ready = some true ∧
     (healthCheck (.ok testClient) 0 none).2 = some testClient) ∧
    ((healthCheck (.error "boom") 0 none).1.status = "unhealthy" ∧
     (healthCheck (.error "boom") 0 none).1.client_ready = none ∧
     (healthCheck (.error "boom") 0 none).2 = none) :=
  ⟨(health_check_reports_obtainability (.error "boom") 0 (some testClient)).1 testClient rfl,
   (health_check_reports_obtainability (.ok testClient) 0 none).2.1 rfl testClient rfl,
   (health_check_reports_obtainability (.error "boom") 0 none).2.2 rfl "boom" rfl⟩

end ZaiService
